import Mathlib

/-!
Shallow embedding of `sdr_agent/analyzer.py`: website quality scoring and
ownership classification.  The analyzer applies fixed tables of regular
expressions to the fetched page, so the embedding starts with a small
regex engine covering exactly the constructs used by those tables, then
mirrors the analyzer's functions, and finally proves the behavioural
properties of the module.
-/

/-- Character classes appearing in the analyzer's regular expressions.
`space`, `word` and `digit` model the ASCII core of Python's `\s`, `\w`
and `\d`; `notGt` models `[^>]`; `anyNoNl` models `.` (anything but a
newline); `spaceDash` models `[\s-]`; `one c` is a literal character. -/
inductive CClass where
  | one (c : Char)
  | space
  | word
  | digit
  | notGt
  | anyNoNl
  | spaceDash
deriving DecidableEq

/-- ASCII whitespace recognised by Python's `\s`. -/
def isPySpace (c : Char) : Bool :=
  c == ' ' || c == '\t' || c == '\n' || c == '\r' || c == '\x0b' || c == '\x0c'

/-- Membership test of a character class. -/
def CClass.test : CClass → Char → Bool
  | .one a, c => c == a
  | .space, c => isPySpace c
  | .word, c => c.isAlphanum || c == '_'
  | .digit, c => c.isDigit
  | .notGt, c => c != '>'
  | .anyNoNl, c => c != '\n'
  | .spaceDash, c => isPySpace c || c == '-'

/-- Regular expressions as used by the analyzer's pattern tables.  In the
source patterns, repetition (`*`, `+`, `{n,}`) only ever applies to a single
character class, so the Kleene star is restricted to character classes; this
keeps the matcher structurally recursive.  `opt` is the greedy `?`,
`alt` the ordered alternation `|`. -/
inductive Regex where
  | eps
  | cls (c : CClass)
  | cat (a b : Regex)
  | alt (a b : Regex)
  | opt (a : Regex)
  | starCls (c : CClass)
deriving DecidableEq

/-- Suffixes reachable by greedily consuming characters of class `c`, in
backtracking priority order (longest consumption first), as Python's greedy
`c*` tries them. -/
def starEnds (c : CClass) : List Char → List (List Char)
  | [] => [[]]
  | a :: rest => if c.test a then starEnds c rest ++ [a :: rest] else [a :: rest]

/-- All suffixes left over after matching `r` against a prefix of the input,
in Python's backtracking priority order (first alternative first, greedy
quantifiers longest first).  The head of the list is the match Python's
engine reports when anchored at this position. -/
def Regex.ends : Regex → List Char → List (List Char)
  | .eps, s => [s]
  | .cls _, [] => []
  | .cls c, a :: rest => if c.test a then [rest] else []
  | .cat r1 r2, s => (r1.ends s).flatMap r2.ends
  | .alt r1 r2, s => r1.ends s ++ r2.ends s
  | .opt r1, s => r1.ends s ++ [s]
  | .starCls c, s => starEnds c s

/-- Scan of `re.search`: try each start position from the left; at the first
position where the pattern matches, report the half-open index interval of
the preferred match. -/
def searchGo (r : Regex) : List Char → Nat → Option (Nat × Nat)
  | [], i => if (r.ends []).isEmpty then none else some (i, i)
  | s@(_ :: rest), i =>
    if (r.ends s).isEmpty then searchGo r rest (i + 1)
    else some (i, i + (s.length - ((r.ends s).headD s).length))

/-- Python's `re.search`: leftmost match, reported as `(start, stop)`
indices into the subject. -/
def reSearch (r : Regex) (s : List Char) : Option (Nat × Nat) :=
  searchGo r s 0

/-- Substring of `s` described by a `(start, stop)` index pair
(`match.group(0)` of a search result). -/
def sliceOf (s : List Char) : Nat × Nat → List Char
  | (i, j) => (s.drop i).take (j - i)

/-- ASCII lowering of a character list, modelling Python's `str.lower()`
and the folding performed by `re.IGNORECASE` (the analyzer's patterns are
all lower case). -/
def lowerL (s : List Char) : List Char :=
  s.map Char.toLower

/-- Case-sensitive `re.search` returning `match.group(0)`. -/
def searchCS (r : Regex) (s : List Char) : Option (List Char) :=
  (reSearch r s).map (sliceOf s)

/-- Case-insensitive `re.search` (flag `re.IGNORECASE`) returning
`match.group(0)`: positions are found on the case-folded subject and the
snippet is taken from the original subject. -/
def searchCI (r : Regex) (s : List Char) : Option (List Char) :=
  (reSearch r (lowerL s)).map (sliceOf s)

/-- Boolean form of case-insensitive `re.search`. -/
def searchCIb (r : Regex) (s : List Char) : Bool :=
  (reSearch r (lowerL s)).isSome

/-- Boolean form of case-sensitive `re.search`. -/
def reTest (r : Regex) (s : List Char) : Bool :=
  (reSearch r s).isSome

/-- Concatenation of a list of regexes. -/
def catL (l : List Regex) : Regex :=
  l.foldr Regex.cat Regex.eps

/-- Ordered alternation of a list of regexes (`a|b|c`). -/
def altL : List Regex → Regex
  | [] => Regex.eps
  | [r] => r
  | r :: rest => Regex.alt r (altL rest)

/-- Literal string regex. -/
def rstr (s : String) : Regex :=
  catL (s.data.map (fun c => Regex.cls (CClass.one c)))

/-- Greedy `\s+`. -/
def sp1 : Regex :=
  Regex.cat (Regex.cls CClass.space) (Regex.starCls CClass.space)

/-- Greedy `\w+`. -/
def wd1 : Regex :=
  Regex.cat (Regex.cls CClass.word) (Regex.starCls CClass.word)

/-- Greedy `.*`. -/
def dotStar : Regex :=
  Regex.starCls CClass.anyNoNl

/-- Greedy `c{2,}`. -/
def rep2 (c : CClass) : Regex :=
  catL [Regex.cls c, Regex.cls c, Regex.starCls c]

/-- Greedy `c{3,}`. -/
def rep3 (c : CClass) : Regex :=
  catL [Regex.cls c, Regex.cls c, Regex.cls c, Regex.starCls c]

/-- Optional single character (`x?`). -/
def optc (c : Char) : Regex :=
  Regex.opt (Regex.cls (CClass.one c))

/-- Source `_GROUP_PATTERNS`: footer / body patterns that signal the practice
belongs to a larger group, in table order.  Each entry is the translation of
the corresponding raw pattern string of `analyzer.py`; the copyright pattern's
literal appears here in lower case because matching is case-folded. -/
def _GROUP_PATTERNS : List Regex :=
  [catL [rstr "a", sp1, rstr "proud", sp1, rstr "partner", sp1, rstr "of"],
   catL [rstr "proud", sp1, rstr "member", sp1, rstr "of"],
   catL [rstr "supported", sp1, rstr "by"],
   catL [rstr "managed", sp1, rstr "by"],
   catL [rstr "part", sp1, rstr "of", sp1, rstr "the", sp1, wd1, sp1,
         altL [rstr "family", rstr "network", rstr "group"]],
   catL [rstr "a", sp1, altL [rstr "portfolio", rstr "affiliated"], sp1, rstr "company"],
   catL [rstr "backed", sp1, rstr "by"],
   catL [rstr "a", optc 'n', sp1, wd1, sp1, rstr "portfolio", sp1, rstr "company"],
   catL [rep2 CClass.digit, sp1, rstr "locations"],
   catL [rep2 CClass.digit, sp1, rstr "offices"],
   catL [rstr "nationwide", sp1, rstr "network"],
   catL [rstr "all", sp1, rstr "rights", sp1, rstr "reserved", dotStar,
         altL [rstr "management", rstr "partners", rstr "capital", rstr "holdings", rstr "group"]],
   catL [rstr "â©", dotStar,
         altL [catL [rstr "dental", sp1, rstr "care"], rstr "management", rstr "partners",
               rstr "capital", rstr "holdings", rstr "group"],
         sp1, altL [rstr "llc", rstr "inc", rstr "corp"]]]

/-- Source `_KNOWN_GROUP_BRANDS`: known DSO / group brands. -/
def _KNOWN_GROUP_BRANDS : List String :=
  ["aspen dental", "heartland dental", "pacific dental", "dental care alliance",
   "smile brands", "dentalcorp", "mid-atlantic dental partners", "affordable care",
   "great expressions", "western dental", "birner dental", "interdent", "dental365",
   "mb2 dental", "north american dental group", "shore dental", "dental depot"]

/-- Source `_INDEPENDENT_PATTERNS`: patterns suggesting independent ownership. -/
def _INDEPENDENT_PATTERNS : List Regex :=
  [catL [rstr "family", Regex.cls CClass.spaceDash, rstr "owned"],
   catL [rstr "locally", Regex.cls CClass.spaceDash, rstr "owned"],
   catL [rstr "independently", Regex.cls CClass.spaceDash, rstr "owned"],
   catL [rstr "private", sp1, rstr "practice"],
   catL [rstr "sole", sp1, rstr "practitioner"],
   catL [rstr "owner", Regex.cls CClass.spaceDash, rstr "operated"]]

/-- Alternatives of the `has_online_booking` signal. -/
def bookingPats : List Regex :=
  [catL [rstr "book", sp1, altL [rstr "online", rstr "now", rstr "appointment"]],
   catL [rstr "schedule", sp1, altL [rstr "online", rstr "now", rstr "appointment"]],
   catL [rstr "request", sp1, rstr "appointment"],
   catL [rstr "online", sp1, rstr "scheduling"]]

/-- Alternatives of the `has_services_page` signal. -/
def servicesPats : List Regex :=
  [catL [Regex.opt (catL [rstr "our", sp1]), rstr "services"],
   catL [rstr "treatment", optc 's', sp1, altL [catL [rstr "we", sp1, rstr "offer"], rstr "offered"]]]

/-- Alternatives of the `has_reviews_or_testimonials` signal. -/
def reviewsPats : List Regex :=
  [catL [rstr "testimonial", optc 's'],
   catL [rstr "patient", sp1, rstr "reviews"],
   catL [rstr "what", sp1, Regex.opt (catL [rstr "our", sp1]),
         altL [rstr "patients", rstr "clients"], sp1, rstr "say"]]

/-- Alternatives of the `has_team_page` signal. -/
def teamPats : List Regex :=
  [catL [altL [rstr "our", rstr "meet"], sp1, Regex.opt (catL [rstr "the", sp1]),
         altL [rstr "team", catL [rstr "doctor", optc 's'], rstr "staff",
               catL [rstr "provider", optc 's']]],
   catL [rstr "about", sp1, Regex.opt (catL [rstr "the", sp1]), rstr "doctor"]]

/-- Alternatives of the `has_contact_form` signal. -/
def contactPats : List Regex :=
  [catL [rstr "contact", sp1, rstr "us"],
   catL [rstr "get", sp1, rstr "in", sp1, rstr "touch"],
   catL [rstr "send", sp1, Regex.opt (catL [rstr "us", sp1]), optc 'a',
         Regex.opt (Regex.cls CClass.space), rstr "message"]]

/-- Alternatives of the `has_insurance_info` signal. -/
def insurancePats : List Regex :=
  [catL [Regex.opt (catL [rstr "accepted", sp1]), rstr "insurance"],
   catL [rstr "payment", sp1, rstr "options"],
   rstr "financing"]

/-- Alternatives of the `has_new_patient_info` signal. -/
def newPatientPats : List Regex :=
  [catL [rstr "new", sp1, rstr "patient"],
   catL [rstr "first", sp1, rstr "visit"],
   catL [rstr "welcome", sp1, rstr "new"]]

/-- Alternatives of the `has_blog` signal. -/
def blogPats : List Regex :=
  [catL [rstr "<a", Regex.starCls CClass.notGt, rstr "href=", Regex.starCls CClass.notGt, rstr "blog"],
   rstr "/blog"]

/-- Alternatives of the `has_broken_layout` negative signal. -/
def brokenPats : List Regex :=
  [catL [rstr "lorem", sp1, rstr "ipsum"],
   catL [rstr "coming", sp1, rstr "soon"],
   catL [rstr "under", sp1, rstr "construction"],
   catL [rstr "site", sp1, rstr "not", sp1, rstr "found"],
   catL [rstr "page", sp1, rstr "not", sp1, rstr "found"]]

/-- Alternatives of the `is_template_site` negative signal. -/
def templatePats : List Regex :=
  [catL [rstr "powered", sp1, rstr "by", sp1, rstr "wix"],
   catL [rstr "powered", sp1, rstr "by", sp1, rstr "squarespace"],
   rstr "weebly.com",
   rstr "wordpress.com"]

/-- Source `_POSITIVE_SIGNALS` in insertion order: name, alternatives, points. -/
def _POSITIVE_SIGNALS : List (String × List Regex × Int) :=
  [("has_online_booking", (bookingPats, 15)),
   ("has_services_page", (servicesPats, 10)),
   ("has_reviews_or_testimonials", (reviewsPats, 10)),
   ("has_team_page", (teamPats, 5)),
   ("has_contact_form", (contactPats, 5)),
   ("has_insurance_info", (insurancePats, 5)),
   ("has_new_patient_info", (newPatientPats, 10)),
   ("has_blog", (blogPats, 5))]

/-- Source `_NEGATIVE_SIGNALS` in insertion order: name, alternatives, points. -/
def _NEGATIVE_SIGNALS : List (String × List Regex × Int) :=
  [("has_broken_layout", (brokenPats, -20)),
   ("is_template_site", (templatePats, -5))]

/-- Pattern of `re.search(r"locations?\s*(?:near|finder|search)", text)`. -/
def locPat1 : Regex :=
  catL [rstr "location", optc 's', Regex.starCls CClass.space,
        altL [rstr "near", rstr "finder", rstr "search"]]

/-- Pattern of `re.search(r"find\s+a\s+(location|office|clinic)", text)`. -/
def locPat2 : Regex :=
  catL [rstr "find", sp1, rstr "a", sp1, altL [rstr "location", rstr "office", rstr "clinic"]]

/-- Python's left-to-right, non-overlapping `str.replace(pat, rep)` on
character lists, driven by a fuel argument that the wrapper sets to the
subject length (each step consumes at least one character, so the fuel
never runs out). -/
def replaceAllFuel (pat rep : List Char) : Nat → List Char → List Char
  | _, [] => []
  | 0, s => s
  | fuel + 1, c :: rest =>
    if pat ≠ [] ∧ pat.isPrefixOf (c :: rest) then
      rep ++ replaceAllFuel pat rep fuel (rest.drop (pat.length - 1))
    else
      c :: replaceAllFuel pat rep fuel rest

/-- Python's `str.replace(pat, rep)` (all occurrences, left to right). -/
def replaceAll (pat rep s : List Char) : List Char :=
  replaceAllFuel pat rep s.length s

/-- String wrapper for `replaceAll`. -/
def strReplace (s pat rep : String) : String :=
  String.mk (replaceAll pat.data rep.data s.data)

/-- Helper of `pyTitle`: Python's `str.title()` capitalises a letter that
follows a non-letter and lowercases a letter that follows a letter. -/
def titleGo : Bool → List Char → List Char
  | _, [] => []
  | prevAlpha, c :: rest =>
    (if c.isAlpha then (if prevAlpha then c.toLower else c.toUpper) else c)
      :: titleGo c.isAlpha rest

/-- Python's `str.title()` restricted to ASCII letters, which is all the
signal names contain. -/
def pyTitle (s : String) : String :=
  String.mk (titleGo false s.data)

/-- Python's `str.startswith(pre)`. -/
def pyStartsWith (s pre : String) : Bool :=
  pre.data.isPrefixOf s.data

/-- Python's `"; ".join(l)`. -/
def joinSemi : List String → String
  | [] => ""
  | [x] => x
  | x :: xs => x ++ "; " ++ joinSemi xs

/-- Append each candidate signal to the accumulator unless it is already
present, as the footer loop of `_classify_ownership` does. -/
def appendNew : List String → List String → List String
  | acc, [] => acc
  | acc, x :: xs => if x ∈ acc then appendNew acc xs else appendNew (acc ++ [x]) xs

/-- Reason label of a positive signal:
`signal_name.replace("has_", "").replace("_", " ").title()` with the
signed point delta appended, as in `analyze_website`. -/
def posReason (name : String) (points : Int) : String :=
  pyTitle (strReplace (strReplace name "has_" "") "_" " ") ++ " (+" ++ toString points ++ ")"

/-- Reason label of a negative signal:
`signal_name.replace("has_", "").replace("is_", "").replace("_", " ").title()`
with the (negative) point delta appended, as in `analyze_website`. -/
def negReason (name : String) (points : Int) : String :=
  pyTitle (strReplace (strReplace (strReplace name "has_" "") "is_" "") "_" " ")
    ++ " (" ++ toString points ++ ")"

/-- Inner loop of a signal category: try the alternatives in order; the
category fires on the first alternative that `re.search` (IGNORECASE) finds
in the extracted text or in the lowercased markup, and later alternatives
are not tried. -/
def signalHit : List Regex → List Char → List Char → Bool
  | [], _, _ => false
  | p :: ps, t, h => if searchCIb p t || searchCIb p h then true else signalHit ps t h

/-- Outer loop of the scoring pass over one signal table: for each category,
on a hit add the category's points and record exactly one reason string. -/
def applySignals (mk : String → Int → String) (t h : List Char) :
    List (String × List Regex × Int) → Int × List String → Int × List String
  | [], acc => acc
  | (name, pats, points) :: rest, (score, reasons) =>
    if signalHit pats t h then
      applySignals mk t h rest (score + points, reasons ++ [mk name points])
    else
      applySignals mk t h rest (score, reasons)

/-- Total point contribution of a signal table: the sum, over its
categories, of the category's points when the category fires and zero
otherwise. -/
def tableSum : List (String × List Regex × Int) → List Char → List Char → Int
  | [], _, _ => 0
  | e :: rest, t, h => (if signalHit e.2.1 t h then e.2.2 else 0) + tableSum rest t h

/-- Reason strings contributed by a signal table, one per firing category,
in table order. -/
def tableReasons (mk : String → Int → String) :
    List (String × List Regex × Int) → List Char → List Char → List String
  | [], _, _ => []
  | e :: rest, t, h =>
    (if signalHit e.2.1 t h then [mk e.1 e.2.2] else []) ++ tableReasons mk rest t h

/-- Quality scoring of a successfully loaded page (`analyze_website`,
scoring section): start at 30, add 5 when the final URL is https, then
apply the positive and the negative signal tables in order.  Returns the
raw (pre-clamp) score and the reason list. -/
def scorePage (text html_lower : List Char) (respUrl : String) : Int × List String :=
  applySignals negReason text html_lower _NEGATIVE_SIGNALS
    (applySignals posReason text html_lower _POSITIVE_SIGNALS
      (if pyStartsWith respUrl "https://" then (30 + 5, ["Site loads (+30)", "HTTPS (+5)"])
       else (30, ["Site loads (+30)"])))

/-- Known-brand signals: one `"Known brand: <brand>"` entry per brand of
`_KNOWN_GROUP_BRANDS` that occurs as a substring of the lowercased page
text (Python's `brand in text`), in table order. -/
def knownBrandSignals (t : List Char) : List String :=
  _KNOWN_GROUP_BRANDS.filterMap fun b =>
    if b.data <:+: t then some ("Known brand: " ++ b) else none

/-- Group-pattern signals: one `Pattern: "<snippet>"` entry per group
pattern that matches the page text, the snippet being the first 80
characters of `match.group(0)`. -/
def groupPatternSignals (t : List Char) : List String :=
  _GROUP_PATTERNS.filterMap fun p =>
    (searchCI p t).map fun m => "Pattern: \"" ++ String.mk (m.take 80) ++ "\""

/-- Footer signals: one `Footer: "<snippet>"` entry per group pattern that
matches the footer text, the snippet being the first 80 characters of
`match.group(0)`. -/
def footerSignalsRaw (ft : List Char) : List String :=
  _GROUP_PATTERNS.filterMap fun p =>
    (searchCI p ft).map fun m => "Footer: \"" ++ String.mk (m.take 80) ++ "\""

/-- Independent-ownership signals: one `Pattern: "<snippet>"` entry per
independent pattern that matches the page text, the snippet being the
first 60 characters of `match.group(0)`. -/
def independentSignalsOf (t : List Char) : List String :=
  _INDEPENDENT_PATTERNS.filterMap fun p =>
    (searchCI p t).map fun m => "Pattern: \"" ++ String.mk (m.take 60) ++ "\""

/-- Footer stage of `_classify_ownership`: when the extracted footer text is
non-empty, append each footer signal that is not already present. -/
def footerPart (extractFooter : String → String) (htmlLower : String)
    (base : List String) : List String :=
  if extractFooter htmlLower ≠ "" then
    appendNew base (footerSignalsRaw (extractFooter htmlLower).data)
  else base

/-- Authority component of an absolute `http(s)://` URL, as
`urllib.parse.urlparse(url).netloc` yields for the normalized URLs the
analyzer builds: the text between the scheme marker and the next
`/`, `?` or `#` (empty for a scheme-less string). -/
def netloc (url : String) : String :=
  String.mk
    ((if pyStartsWith url "https://" then url.data.drop 8
      else if pyStartsWith url "http://" then url.data.drop 7
      else []).takeWhile fun c => !(c == '/' || c == '?' || c == '#'))

/-- The lowercased domain: `urlparse(url).netloc.lower()`. -/
def domainOf (url : String) : String :=
  String.mk (lowerL (netloc url).data)

/-- The first label of the domain after dropping `www.`:
`domain.replace("www.", "").split(".")[0]` (the prefix before the first
dot). -/
def domainName (url : String) : String :=
  String.mk ((replaceAll "www.".data [] (domainOf url).data).takeWhile fun c => !(c == '.'))

/-- All group-ownership signals collected by `_classify_ownership`, in
order: known brands, group patterns in the text, deduplicated footer
matches, the two location-finder checks (no IGNORECASE flag), and the
numeric-domain heuristic (`\d{3,}` in the first domain label). -/
def collectGroupSignals (extractFooter : String → String)
    (text htmlLower url : String) : List String :=
  footerPart extractFooter htmlLower
      (knownBrandSignals text.data ++ groupPatternSignals text.data)
    ++ (if reTest locPat1 text.data then ["Has location finder"] else [])
    ++ (if reTest locPat2 text.data then ["Has location finder"] else [])
    ++ (if reTest (rep3 CClass.digit) (domainName url).data then
          ["Numeric domain: " ++ domainOf url]
        else [])

/-- Source `_classify_ownership(text, html_lower, url)`.  The
BeautifulSoup-based `_extract_footer_text` is an external HTML-parsing
helper and is passed in as the function `extractFooter`. -/
def _classify_ownership (extractFooter : String → String)
    (text htmlLower url : String) : String × String :=
  if collectGroupSignals extractFooter text htmlLower url ≠ []
      ∧ independentSignalsOf text.data = [] then
    ("Group/DSO", joinSemi (collectGroupSignals extractFooter text htmlLower url))
  else if independentSignalsOf text.data ≠ []
      ∧ collectGroupSignals extractFooter text htmlLower url = [] then
    ("Independent", joinSemi (independentSignalsOf text.data))
  else if collectGroupSignals extractFooter text htmlLower url ≠ []
      ∧ independentSignalsOf text.data ≠ [] then
    ("Group/DSO",
     joinSemi (collectGroupSignals extractFooter text htmlLower url
       ++ ["(also found independent signals)"]))
  else ("Unknown", "No clear signals found")

/-- Result record of `analyze_website` (the four analysis fields). -/
structure AnalysisResult where
  website_score : Int
  score_reasons : String
  ownership_type : String
  ownership_signals : String
deriving DecidableEq

/-- Outcome of the single `requests.get` on the normalized URL: either a
`requests.RequestException` (carrying the exception class name) or a
response with its final post-redirect URL and body. -/
inductive FetchOutcome where
  | failure (excName : String)
  | success (finalUrl : String) (html : String)
deriving DecidableEq

/-- URL normalization of `analyze_website`: prepend `https://` unless the
URL already starts with `http://` or `https://`. -/
def normalizeUrl (url : String) : String :=
  if pyStartsWith url "http://" || pyStartsWith url "https://" then url
  else "https://" ++ url

/-- Source `analyze_website(url)`.  The network and the two
BeautifulSoup-based helpers are inputs: `extractText` models
`soup.get_text(separator=" ", strip=True).lower()` applied to the body,
`extractFooter` models `_extract_footer_text` applied to the lowercased
markup, and `fetch` is the outcome of the GET on the normalized URL. -/
def analyze_website (extractText extractFooter : String → String)
    (url : String) (fetch : FetchOutcome) : AnalysisResult :=
  if url = "" then
    { website_score := 0, score_reasons := "No website",
      ownership_type := "Unknown", ownership_signals := "" }
  else
    match fetch with
    | FetchOutcome.failure excName =>
      { website_score := 0, score_reasons := "Unreachable (" ++ excName ++ ")",
        ownership_type := "Unknown", ownership_signals := "" }
    | FetchOutcome.success finalUrl html =>
      { website_score :=
          max 0 (min 100
            (scorePage (extractText html).data (lowerL html.data) finalUrl).1),
        score_reasons :=
          joinSemi (scorePage (extractText html).data (lowerL html.data) finalUrl).2,
        ownership_type :=
          (_classify_ownership extractFooter (extractText html)
            (String.mk (lowerL html.data)) (normalizeUrl url)).1,
        ownership_signals :=
          (_classify_ownership extractFooter (extractText html)
            (String.mk (lowerL html.data)) (normalizeUrl url)).2 }

/-- Field values a business record can hold. -/
inductive Val where
  | str (s : String)
  | int (n : Int)
deriving DecidableEq

/-- A business record, viewed as a finite map from field names to values. -/
def BizRec : Type :=
  String → Option Val

/-- Python's `r.get("website", "")`; business records store the website as
a string when present. -/
def getWebsite (r : BizRec) : String :=
  match r "website" with
  | some (Val.str s) => s
  | _ => ""

/-- The in-place `r.update(analysis)` of `analyze_businesses`: the four
analysis fields are written, every other field is untouched. -/
def updateAnalysis (r : BizRec) (a : AnalysisResult) : BizRec := fun k =>
  if k = "website_score" then some (Val.int a.website_score)
  else if k = "score_reasons" then some (Val.str a.score_reasons)
  else if k = "ownership_type" then some (Val.str a.ownership_type)
  else if k = "ownership_signals" then some (Val.str a.ownership_signals)
  else r k

/-- The four field names `analyze_businesses` adds to each record. -/
def analysisKeys : List String :=
  ["website_score", "score_reasons", "ownership_type", "ownership_signals"]

/-- Source `analyze_businesses(results)`: run the analysis on each record's
website and merge the four analysis fields into the record; `fetch` models
the network's response for a record's website. -/
def analyze_businesses (extractText extractFooter : String → String)
    (fetch : String → FetchOutcome) (results : List BizRec) : List BizRec :=
  results.map fun r =>
    updateAnalysis r
      (analyze_website extractText extractFooter (getWebsite r) (fetch (getWebsite r)))

/-- Upper bound of a signal table's contribution: the sum of each
category's points when positive (a category adds its points or nothing). -/
def maxSum : List (String × List Regex × Int) → Int
  | [] => 0
  | e :: rest => max e.2.2 0 + maxSum rest

/-- Lower bound of a signal table's contribution: the sum of each
category's points when negative. -/
def minSum : List (String × List Regex × Int) → Int
  | [] => 0
  | e :: rest => min e.2.2 0 + minSum rest

/-- Page text combining an online-booking phrase with both negative
signals (placeholder text and a site-builder footprint). -/
def c5text : String :=
  "book appointment online lorem ipsum powered by wix"

/-- Page text with one long group-pattern match (`managed\s+by` spanning
74 spaces, 83 characters) and one long independent-pattern match
(`private\s+practice` spanning 50 spaces, 65 characters). -/
def c7text : String :=
  "managed" ++ String.mk (List.replicate 74 ' ') ++ "by private"
    ++ String.mk (List.replicate 50 ' ') ++ "practice"

/-- Page text firing every positive signal category. -/
def bestText : String :=
  "book online services testimonials our team contact us insurance new patient /blog"

/-- Page text firing both negative signal categories and no positive one. -/
def worstText : String :=
  "lorem ipsum powered by wix"

/-- A sample business record with a name and an empty website field. -/
def rec0 : BizRec := fun k =>
  if k = "name" then some (Val.str "Acme Dental")
  else if k = "website" then some (Val.str "") else none


theorem mem_starEnds_self (c : CClass) (s : List Char) : s ∈ starEnds c s := by
  cases s with
  | nil => simp [starEnds]
  | cons a rest =>
    by_cases h : c.test a
    · simp [starEnds, h]
    · simp [starEnds, h]

theorem starEnds_append (c : CClass) (u : List Char) :
    ∀ s t : List Char, t ∈ starEnds c s → t ++ u ∈ starEnds c (s ++ u) := by
  intro s
  induction s with
  | nil =>
    intro t ht
    simp only [starEnds, List.mem_singleton] at ht
    subst ht
    simpa using mem_starEnds_self c u
  | cons a rest ih =>
    intro t ht
    by_cases h : c.test a
    · simp only [starEnds, h, if_true, List.mem_append, List.mem_singleton] at ht
      rcases ht with h1 | h1
      · simpa [starEnds, h] using Or.inl (ih t h1)
      · subst h1
        simp [starEnds, h, mem_starEnds_self]
    · simp [starEnds, h] at ht
      subst ht
      simp [starEnds, h]

theorem ends_append (u : List Char) :
    ∀ (r : Regex) (s t : List Char), t ∈ r.ends s → t ++ u ∈ r.ends (s ++ u) := by
  intro r
  induction r with
  | eps =>
    intro s t ht
    simp only [Regex.ends, List.mem_singleton] at ht
    subst ht
    simp [Regex.ends]
  | cls c =>
    intro s t ht
    cases s with
    | nil => simp [Regex.ends] at ht
    | cons a rest =>
      by_cases h : c.test a
      · simp only [Regex.ends, h, if_true, List.mem_singleton] at ht
        subst ht
        simp [Regex.ends, h]
      · simp [Regex.ends, h] at ht
  | cat r1 r2 ih1 ih2 =>
    intro s t ht
    simp only [Regex.ends, List.mem_flatMap] at ht ⊢
    rcases ht with ⟨m, hm, htm⟩
    exact ⟨m ++ u, ih1 s m hm, ih2 m t htm⟩
  | alt r1 r2 ih1 ih2 =>
    intro s t ht
    simp only [Regex.ends, List.mem_append] at ht ⊢
    rcases ht with h1 | h1
    · exact Or.inl (ih1 s t h1)
    · exact Or.inr (ih2 s t h1)
  | opt r1 ih =>
    intro s t ht
    simp only [Regex.ends, List.mem_append, List.mem_singleton] at ht ⊢
    rcases ht with h1 | h1
    · exact Or.inl (ih s t h1)
    · subst h1
      simp
  | starCls c =>
    intro s t ht
    exact starEnds_append c u s t ht

theorem searchGo_isSome (r : Regex) :
    ∀ (a t : List Char) (i : Nat), r.ends t ≠ [] → ((searchGo r (a ++ t) i).isSome = true) := by
  intro a
  induction a with
  | nil =>
    intro t i h
    have hne : (r.ends t).isEmpty = false := by
      simpa [List.isEmpty_iff] using h
    cases t with
    | nil => simp [searchGo, hne]
    | cons c rest => simp [searchGo, hne]
  | cons c a' ih =>
    intro t i h
    by_cases he : (r.ends (c :: (a' ++ t))).isEmpty
    · simpa [searchGo, he] using ih t (i + 1) h
    · simp [searchGo, he]

/-- If `r` can match the whole of `m` and `m` occurs inside `s`, then
`re.search` succeeds on `s`. -/
theorem reSearch_isSome_of_infix (r : Regex) (m s : List Char)
    (hm : [] ∈ r.ends m) (hs : m <:+: s) : (reSearch r s).isSome = true := by
  rcases hs with ⟨pre, suf, hsplit⟩
  have h1 : ([] : List Char) ++ suf ∈ r.ends (m ++ suf) := ends_append suf r m [] hm
  have h2 : r.ends (m ++ suf) ≠ [] := List.ne_nil_of_mem h1
  have h3 := searchGo_isSome r pre (m ++ suf) 0 h2
  have hs2 : pre ++ (m ++ suf) = s := by
    rw [← hsplit]
    simp [List.append_assoc]
  rw [hs2] at h3
  exact h3

theorem infix_trans_helper {l1 l2 l3 : List Char} (h1 : l1 <:+: l2) (h2 : l2 <:+: l3) :
    l1 <:+: l3 := by
  rcases h1 with ⟨a, b, rfl⟩
  rcases h2 with ⟨c, d, rfl⟩
  exact ⟨c ++ a, b ++ d, by simp [List.append_assoc]⟩

theorem infix_map_helper (f : Char → Char) {l1 l2 : List Char} (h : l1 <:+: l2) :
    l1.map f <:+: l2.map f := by
  rcases h with ⟨a, b, rfl⟩
  exact ⟨a.map f, b.map f, by simp⟩

theorem strData_append (a b : String) : (a ++ b).data = a.data ++ b.data := rfl

theorem mem_appendNew (x : String) :
    ∀ (xs acc : List String), x ∈ acc → x ∈ appendNew acc xs := by
  intro xs
  induction xs with
  | nil => intro acc h; simpa [appendNew] using h
  | cons y ys ih =>
    intro acc h
    by_cases hy : y ∈ acc
    · simpa [appendNew, hy] using ih acc h
    · have hx : x ∈ acc ++ [y] := List.mem_append_left _ h
      simpa [appendNew, hy] using ih (acc ++ [y]) hx

theorem joinSemi_infix (x : String) :
    ∀ l : List String, x ∈ l → x.data <:+: (joinSemi l).data := by
  intro l
  induction l with
  | nil => intro h; simp at h
  | cons y ys ih =>
    intro h
    cases ys with
    | nil =>
      simp only [List.mem_singleton] at h
      subst h
      exact ⟨[], [], by simp [joinSemi]⟩
    | cons z zs =>
      rcases List.mem_cons.mp h with h1 | h1
      · subst h1
        refine ⟨[], ("; " ++ joinSemi (z :: zs)).data, ?_⟩
        simp [joinSemi, strData_append, List.append_assoc]
      · have hx := ih h1
        refine infix_trans_helper hx ⟨(y ++ "; ").data, [], ?_⟩
        simp [joinSemi, strData_append, List.append_assoc]

theorem mem_knownBrandSignals (b : String) (t : List Char)
    (hb : b ∈ _KNOWN_GROUP_BRANDS) (hin : b.data <:+: t) :
    ("Known brand: " ++ b) ∈ knownBrandSignals t := by
  unfold knownBrandSignals
  exact List.mem_filterMap.mpr ⟨b, hb, by simp [hin]⟩

theorem mem_collectGroupSignals_left (x : String) (ef : String → String)
    (text htmlLower url : String)
    (hx : x ∈ knownBrandSignals text.data ++ groupPatternSignals text.data) :
    x ∈ collectGroupSignals ef text htmlLower url := by
  unfold collectGroupSignals
  refine List.mem_append_left _ (List.mem_append_left _ (List.mem_append_left _ ?_))
  unfold footerPart
  split
  · exact mem_appendNew x _ _ hx
  · exact hx

theorem applySignals_spec (mk : String → Int → String) (t h : List Char) :
    ∀ (table : List (String × List Regex × Int)) (s : Int) (rs : List String),
      applySignals mk t h table (s, rs) =
        (s + tableSum table t h, rs ++ tableReasons mk table t h) := by
  intro table
  induction table with
  | nil => intro s rs; simp [applySignals, tableSum, tableReasons]
  | cons e rest ih =>
    intro s rs
    obtain ⟨name, pats, points⟩ := e
    by_cases hh : signalHit pats t h
    · simp [applySignals, hh, ih, tableSum, tableReasons, add_assoc, List.append_assoc]
    · simp [applySignals, hh, ih, tableSum, tableReasons]

theorem tableSum_nonneg (t h : List Char) :
    ∀ table : List (String × List Regex × Int),
      (∀ e ∈ table, 0 ≤ e.2.2) → 0 ≤ tableSum table t h := by
  intro table
  induction table with
  | nil => intro _; simp [tableSum]
  | cons e rest ih =>
    intro hall
    have h1 : (0 : Int) ≤ (if signalHit e.2.1 t h then e.2.2 else 0) := by
      split
      · exact hall e (List.mem_cons_self e rest)
      · exact le_refl 0
    have h2 := ih fun x hx => hall x (List.mem_cons_of_mem e hx)
    simpa [tableSum] using add_nonneg h1 h2

theorem tableSum_eq_zero (t h : List Char) :
    ∀ table : List (String × List Regex × Int),
      (∀ e ∈ table, signalHit e.2.1 t h = false) → tableSum table t h = 0 := by
  intro table
  induction table with
  | nil => intro _; simp [tableSum]
  | cons e rest ih =>
    intro hall
    have h1 := hall e (List.mem_cons_self e rest)
    have h2 := ih fun x hx => hall x (List.mem_cons_of_mem e hx)
    simp [tableSum, h1, h2]

theorem tableSum_le_maxSum (t h : List Char) :
    ∀ table : List (String × List Regex × Int), tableSum table t h ≤ maxSum table := by
  intro table
  induction table with
  | nil => simp [tableSum, maxSum]
  | cons e rest ih =>
    have h1 : (if signalHit e.2.1 t h then e.2.2 else 0) ≤ max e.2.2 0 := by
      split
      · exact le_max_left _ _
      · exact le_max_right _ _
    simpa [tableSum, maxSum] using add_le_add h1 ih

theorem minSum_le_tableSum (t h : List Char) :
    ∀ table : List (String × List Regex × Int), minSum table ≤ tableSum table t h := by
  intro table
  induction table with
  | nil => simp [tableSum, minSum]
  | cons e rest ih =>
    have h1 : min e.2.2 0 ≤ (if signalHit e.2.1 t h then e.2.2 else 0) := by
      split
      · exact min_le_left _ _
      · exact min_le_right _ _
    simpa [tableSum, minSum] using add_le_add h1 ih

theorem scorePage_fst (t h : List Char) (u : String) :
    (scorePage t h u).1 =
      (if pyStartsWith u "https://" then (35 : Int) else 30)
        + tableSum _POSITIVE_SIGNALS t h + tableSum _NEGATIVE_SIGNALS t h := by
  unfold scorePage
  by_cases hu : pyStartsWith u "https://"
  · simp [hu, applySignals_spec, add_assoc]
  · simp [hu, applySignals_spec, add_assoc]

/-- Claim C1: for every input URL (empty, unreachable or successfully
fetched) and every fetch outcome, the `website_score` returned by
`analyze_website` is an integer in the interval `[0, 100]`. -/
theorem c1_website_score_in_range (e ef : String → String) (url : String)
    (f : FetchOutcome) :
    0 ≤ (analyze_website e ef url f).website_score ∧
      (analyze_website e ef url f).website_score ≤ 100 := by
  by_cases hu : url = ""
  · simp [analyze_website, hu]
  · cases f with
    | failure ex => simp [analyze_website, hu]
    | success fu html =>
      simp only [analyze_website, hu, if_false]
      refine ⟨le_max_left 0 _, ?_⟩
      exact max_le (by norm_num) (min_le_left _ _)

/-- Claim C2: ownership classification follows the exact precedence on the
collected signal lists: group-only gives Group, independent-only gives
Independent, both give Group with the caveat string appended, neither
gives Unknown with the fixed no-signals explanation. -/
theorem c2_ownership_decision_precedence (ef : String → String)
    (text htmlLower url : String) :
    (collectGroupSignals ef text htmlLower url ≠ [] →
      independentSignalsOf text.data = [] →
      _classify_ownership ef text htmlLower url =
        ("Group/DSO", joinSemi (collectGroupSignals ef text htmlLower url))) ∧
    (independentSignalsOf text.data ≠ [] →
      collectGroupSignals ef text htmlLower url = [] →
      _classify_ownership ef text htmlLower url =
        ("Independent", joinSemi (independentSignalsOf text.data))) ∧
    (collectGroupSignals ef text htmlLower url ≠ [] →
      independentSignalsOf text.data ≠ [] →
      _classify_ownership ef text htmlLower url =
        ("Group/DSO", joinSemi (collectGroupSignals ef text htmlLower url
          ++ ["(also found independent signals)"]))) ∧
    (collectGroupSignals ef text htmlLower url = [] →
      independentSignalsOf text.data = [] →
      _classify_ownership ef text htmlLower url =
        ("Unknown", "No clear signals found")) := by
  refine ⟨?_, ?_, ?_, ?_⟩ <;> intro h1 h2 <;> simp [_classify_ownership, h1, h2]

/-- Witness for C2: a page whose text mentions a known brand and no
independent phrase is classified Group with the brand as evidence. -/
theorem c2_ownership_decision_precedence_w :
    _classify_ownership (fun _ => "") "aspen dental" "" "https://example.com" =
      ("Group/DSO", "Known brand: aspen dental") := by
  have h := (c2_ownership_decision_precedence (fun _ => "") "aspen dental" ""
      "https://example.com").1 (by decide) (by decide)
  exact h.trans (by decide)

/-- Claim C3: `analyze_website` never raises: an empty URL yields the
terminal record with score 0, reason exactly "No website" and ownership
Unknown; a fetch failure yields the terminal record with score 0,
ownership Unknown and a reason naming the failure kind, with no scoring
or classification. -/
theorem c3_failure_short_circuit (e ef : String → String) :
    (∀ f : FetchOutcome,
      analyze_website e ef "" f =
        { website_score := 0, score_reasons := "No website",
          ownership_type := "Unknown", ownership_signals := "" }) ∧
    (∀ url excName : String, url ≠ "" →
      analyze_website e ef url (FetchOutcome.failure excName) =
        { website_score := 0,
          score_reasons := "Unreachable (" ++ excName ++ ")",
          ownership_type := "Unknown", ownership_signals := "" }) := by
  constructor
  · intro f; simp [analyze_website]
  · intro url ex hu; simp [analyze_website, hu]

/-- Witness for C3: a timeout on a non-empty URL yields the terminal
unreachable record. -/
theorem c3_failure_short_circuit_w :
    analyze_website (fun _ => "") (fun _ => "") "example.com"
        (FetchOutcome.failure "Timeout") =
      { website_score := 0, score_reasons := "Unreachable (Timeout)",
        ownership_type := "Unknown", ownership_signals := "" } := by
  have h := (c3_failure_short_circuit (fun _ => "") (fun _ => "")).2
      "example.com" "Timeout" (by decide)
  exact h.trans (by decide)

/-- Claim C4: for a loaded page the score decomposes as 30 baseline, plus
5 when the final URL is https, plus for each category in table order its
fixed points when its alternatives (tried in order, first match wins)
fire; the reason list holds the baseline reasons followed by exactly one
annotated reason per firing category, in evaluation order, each carrying
its signed point delta. -/
theorem c4_score_decomposition (t h : List Char) (u : String) :
    scorePage t h u =
      ((if pyStartsWith u "https://" then (30 : Int) + 5 else 30)
          + tableSum _POSITIVE_SIGNALS t h + tableSum _NEGATIVE_SIGNALS t h,
       (if pyStartsWith u "https://" then ["Site loads (+30)", "HTTPS (+5)"]
        else ["Site loads (+30)"])
          ++ tableReasons posReason _POSITIVE_SIGNALS t h
          ++ tableReasons negReason _NEGATIVE_SIGNALS t h) := by
  unfold scorePage
  by_cases hu : pyStartsWith u "https://"
  · simp [hu, applySignals_spec, add_assoc, List.append_assoc]
  · simp [hu, applySignals_spec, add_assoc, List.append_assoc]

/-- Counterexample for C5: this page text contains "book appointment
online" and is served over https, yet its score is 25 (the two negative
signal categories subtract 25), refuting the claimed lower bound of 50. -/
theorem c5_counterexample :
    ("book appointment online".data <:+: c5text.data) ∧
      pyStartsWith "https://example.com/" "https://" = true ∧
      (analyze_website (fun _ => c5text) (fun _ => "") "example.com"
        (FetchOutcome.success "https://example.com/" "")).website_score = 25 ∧
      ¬ (50 ≤ (analyze_website (fun _ => c5text) (fun _ => "") "example.com"
        (FetchOutcome.success "https://example.com/" "")).website_score) := by
  refine ⟨by decide, by decide, by decide, by decide⟩

/-- Amended C5: a successfully fetched page over https whose text contains
"book appointment online" and on which neither negative signal category
fires scores at least 50. -/
theorem c5_booking_https_amended (e ef : String → String)
    (url html finalUrl : String)
    (hurl : url ≠ "")
    (hssl : pyStartsWith finalUrl "https://" = true)
    (hbook : "book appointment online".data <:+: (e html).data)
    (hneg : ∀ entry ∈ _NEGATIVE_SIGNALS,
      signalHit entry.2.1 (e html).data (lowerL html.data) = false) :
    50 ≤ (analyze_website e ef url (FetchOutcome.success finalUrl html)).website_score := by
  have hm : "book appointment".data <:+: (e html).data :=
    infix_trans_helper (by decide) hbook
  have hml : lowerL "book appointment".data <:+: lowerL (e html).data :=
    infix_map_helper Char.toLower hm
  have hme : lowerL "book appointment".data = "book appointment".data := by decide
  rw [hme] at hml
  have hend : [] ∈ (catL [rstr "book", sp1,
      altL [rstr "online", rstr "now", rstr "appointment"]]).ends
        "book appointment".data := by decide
  have hsearch : (reSearch (catL [rstr "book", sp1,
      altL [rstr "online", rstr "now", rstr "appointment"]])
        (lowerL (e html).data)).isSome = true :=
    reSearch_isSome_of_infix _ _ _ hend hml
  have hhit : signalHit bookingPats (e html).data (lowerL html.data) = true := by
    simp [signalHit, bookingPats, searchCIb, hsearch]
  have htail : 0 ≤ tableSum _POSITIVE_SIGNALS.tail (e html).data (lowerL html.data) :=
    tableSum_nonneg _ _ _ (by decide)
  have hhead : tableSum _POSITIVE_SIGNALS (e html).data (lowerL html.data)
      = 15 + tableSum _POSITIVE_SIGNALS.tail (e html).data (lowerL html.data) := by
    rw [show _POSITIVE_SIGNALS
        = ("has_online_booking", (bookingPats, (15 : Int))) :: _POSITIVE_SIGNALS.tail
      from rfl]
    simp [tableSum, hhit]
  have hneg0 : tableSum _NEGATIVE_SIGNALS (e html).data (lowerL html.data) = 0 :=
    tableSum_eq_zero _ _ _ hneg
  have hraw : 50 ≤ (scorePage (e html).data (lowerL html.data) finalUrl).1 := by
    rw [scorePage_fst]
    simp only [hssl, if_true]
    omega
  have hclamp : 50 ≤ max 0 (min 100 (scorePage (e html).data (lowerL html.data) finalUrl).1) :=
    le_trans (le_min (by norm_num) hraw) (le_max_right 0 _)
  simpa [analyze_website, hurl] using hclamp

/-- Witness for the amended C5: a clean https page with the booking phrase
scores exactly at the bound. -/
theorem c5_booking_https_amended_w :
    50 ≤ (analyze_website (fun _ => "book appointment online") (fun _ => "")
      "x.com" (FetchOutcome.success "https://x.com/" "")).website_score :=
  c5_booking_https_amended (fun _ => "book appointment online") (fun _ => "")
    "x.com" "" "https://x.com/" (by decide) (by decide) (by decide) (by decide)

/-- Claim C6: a page whose lower-cased text contains a known group brand
and matches none of the independent-ownership patterns is classified
Group, and the evidence string includes "Known brand: <name>". -/
theorem c6_known_brand_group (ef : String → String)
    (text htmlLower url brand : String)
    (hb : brand ∈ _KNOWN_GROUP_BRANDS)
    (hin : brand.data <:+: text.data)
    (hnone : ∀ p ∈ _INDEPENDENT_PATTERNS, searchCI p text.data = none) :
    (_classify_ownership ef text htmlLower url).1 = "Group/DSO" ∧
      ("Known brand: " ++ brand).data <:+:
        (_classify_ownership ef text htmlLower url).2.data := by
  have hisnil : independentSignalsOf text.data = [] := by
    unfold independentSignalsOf
    rw [List.filterMap_eq_nil_iff]
    intro p hp
    rw [hnone p hp]
    rfl
  have hmem : ("Known brand: " ++ brand) ∈ collectGroupSignals ef text htmlLower url :=
    mem_collectGroupSignals_left _ ef text htmlLower url
      (List.mem_append_left _ (mem_knownBrandSignals brand text.data hb hin))
  have hgs : collectGroupSignals ef text htmlLower url ≠ [] :=
    List.ne_nil_of_mem hmem
  have hcl : _classify_ownership ef text htmlLower url =
      ("Group/DSO", joinSemi (collectGroupSignals ef text htmlLower url)) := by
    simp [_classify_ownership, hgs, hisnil]
  rw [hcl]
  exact ⟨rfl, joinSemi_infix _ _ hmem⟩

/-- Witness for C6: a page mentioning "pacific dental" with no independent
phrase is classified Group with the brand in the evidence. -/
theorem c6_known_brand_group_w :
    (_classify_ownership (fun _ => "") "welcome to pacific dental care" ""
      "https://pd.example").1 = "Group/DSO" ∧
      ("Known brand: " ++ "pacific dental").data <:+:
        (_classify_ownership (fun _ => "") "welcome to pacific dental care" ""
          "https://pd.example").2.data :=
  c6_known_brand_group (fun _ => "") "welcome to pacific dental care" ""
    "https://pd.example" "pacific dental" (by decide) (by decide) (by decide)

set_option maxRecDepth 4000 in
/-- Counterexample for C7: on this page the group-pattern snippet is cut
at 80 characters (signal length 91 with its 11 wrapper characters) while
the independent-pattern snippet is cut at 60 (signal length 71), although
both raw matches are longer (83 and 65 characters); no single fixed
truncation length produces both observed snippet lengths. -/
theorem c7_counterexample :
    ((groupPatternSignals c7text.data).map (fun s => s.data.length) = [91]) ∧
      ((independentSignalsOf c7text.data).map (fun s => s.data.length) = [71]) ∧
      ((searchCI (catL [rstr "managed", sp1, rstr "by"]) c7text.data).map
        List.length = some 83) ∧
      ((searchCI (catL [rstr "private", sp1, rstr "practice"]) c7text.data).map
        List.length = some 65) ∧
      ¬ ∃ L : Nat, min 83 L = 80 ∧ min 65 L = 60 := by
  refine ⟨by decide, by decide, by decide, by decide, ?_⟩
  rintro ⟨L, h1, h2⟩
  omega

/-- Amended C7: every matched snippet placed into the evidence lists is
the raw match truncated to a fixed per-family length before joining:
80 characters for group-pattern and footer matches, 60 characters for
independent-pattern matches. -/
theorem c7_truncation_amended (t : List Char) (p : Regex) (m : List Char) :
    (p ∈ _GROUP_PATTERNS → searchCI p t = some m →
      ("Pattern: \"" ++ String.mk (m.take 80) ++ "\"") ∈ groupPatternSignals t) ∧
    (p ∈ _GROUP_PATTERNS → searchCI p t = some m →
      ("Footer: \"" ++ String.mk (m.take 80) ++ "\"") ∈ footerSignalsRaw t) ∧
    (p ∈ _INDEPENDENT_PATTERNS → searchCI p t = some m →
      ("Pattern: \"" ++ String.mk (m.take 60) ++ "\"") ∈ independentSignalsOf t) := by
  refine ⟨?_, ?_, ?_⟩ <;> intro hp hs
  · exact List.mem_filterMap.mpr ⟨p, hp, by rw [hs]; rfl⟩
  · exact List.mem_filterMap.mpr ⟨p, hp, by rw [hs]; rfl⟩
  · exact List.mem_filterMap.mpr ⟨p, hp, by rw [hs]; rfl⟩

/-- Witness for the amended C7: the snippet of a concrete group-pattern
match appears truncated to 80 characters in the group evidence list. -/
theorem c7_truncation_amended_w :
    ("Pattern: \"" ++ String.mk ("managed by".data.take 80) ++ "\"") ∈
      groupPatternSignals "managed by us".data :=
  (c7_truncation_amended "managed by us".data
      (catL [rstr "managed", sp1, rstr "by"]) "managed by".data).1
    (by decide) (by decide)

/-- Counterexample for C8: two runs with identical fetched content (same
final URL, same HTML) but different input URLs disagree, because the
numeric-domain heuristic of the ownership classifier reads the input URL. -/
theorem c8_determinism_counterexample :
    analyze_website (fun _ => "") (fun _ => "") "dental365.com"
        (FetchOutcome.success "https://site.example/" "x") ≠
      analyze_website (fun _ => "") (fun _ => "") "example.com"
        (FetchOutcome.success "https://site.example/" "x") := by
  decide

/-- Amended C8: scoring and classification are deterministic functions of
the input URL together with the fetched content: two runs with the same
input URL, the same final URL and the same HTML agree on all four output
fields. -/
theorem c8_determinism_amended (e ef : String → String)
    (url fu1 fu2 html1 html2 : String) (hfu : fu1 = fu2) (hh : html1 = html2) :
    analyze_website e ef url (FetchOutcome.success fu1 html1) =
      analyze_website e ef url (FetchOutcome.success fu2 html2) := by
  rw [hfu, hh]

/-- Witness for the amended C8. -/
theorem c8_determinism_amended_w :
    analyze_website (fun _ => "") (fun _ => "") "x.com"
        (FetchOutcome.success "https://x.com/" "") =
      analyze_website (fun _ => "") (fun _ => "") "x.com"
        (FetchOutcome.success "https://x.com/" "") :=
  c8_determinism_amended (fun _ => "") (fun _ => "") "x.com"
    "https://x.com/" "https://x.com/" "" "" rfl rfl

/-- Claim C9: `analyze_businesses` returns the records in the same order,
each augmented with exactly the four analysis fields computed from its
website, and every other field of every record is unchanged. -/
theorem c9_analyze_businesses_frame (e ef : String → String)
    (fetch : String → FetchOutcome) (results : List BizRec) :
    (analyze_businesses e ef fetch results).length = results.length ∧
      ∀ (i : Nat) (r out : BizRec),
        results.get? i = some r →
        (analyze_businesses e ef fetch results).get? i = some out →
        (out "website_score" = some (Val.int
            (analyze_website e ef (getWebsite r) (fetch (getWebsite r))).website_score) ∧
         out "score_reasons" = some (Val.str
            (analyze_website e ef (getWebsite r) (fetch (getWebsite r))).score_reasons) ∧
         out "ownership_type" = some (Val.str
            (analyze_website e ef (getWebsite r) (fetch (getWebsite r))).ownership_type) ∧
         out "ownership_signals" = some (Val.str
            (analyze_website e ef (getWebsite r) (fetch (getWebsite r))).ownership_signals) ∧
         ∀ k : String, k ∉ analysisKeys → out k = r k) := by
  constructor
  · simp [analyze_businesses]
  · intro i r out hr hout
    unfold analyze_businesses at hout
    rw [List.get?_map, hr] at hout
    injection hout with hout
    subst hout
    refine ⟨by simp [updateAnalysis], by simp [updateAnalysis],
      by simp [updateAnalysis], by simp [updateAnalysis], ?_⟩
    intro k hk
    simp only [analysisKeys, List.mem_cons, List.not_mem_nil, or_false] at hk
    push_neg at hk
    obtain ⟨h1, h2, h3, h4⟩ := hk
    simp [updateAnalysis, h1, h2, h3, h4]

/-- Witness for C9: on a one-record list whose fetch times out, the
record's unrelated `name` field is unchanged. -/
theorem c9_analyze_businesses_frame_w :
    ((analyze_businesses (fun _ => "") (fun _ => "")
        (fun _ => FetchOutcome.failure "Timeout") [rec0]).headD rec0) "name" =
      some (Val.str "Acme Dental") := by
  have h := (c9_analyze_businesses_frame (fun _ => "") (fun _ => "")
      (fun _ => FetchOutcome.failure "Timeout") [rec0]).2 0 rec0
      (updateAnalysis rec0
        (analyze_website (fun _ => "") (fun _ => "") (getWebsite rec0)
          ((fun _ : String => FetchOutcome.failure "Timeout") (getWebsite rec0))))
      rfl rfl
  have h5 := h.2.2.2.2 "name" (by decide)
  calc ((analyze_businesses (fun _ => "") (fun _ => "")
          (fun _ => FetchOutcome.failure "Timeout") [rec0]).headD rec0) "name"
      = updateAnalysis rec0
          (analyze_website (fun _ => "") (fun _ => "") (getWebsite rec0)
            ((fun _ : String => FetchOutcome.failure "Timeout") (getWebsite rec0))) "name" := rfl
    _ = rec0 "name" := h5
    _ = some (Val.str "Acme Dental") := by decide

/-- Claim C10: for every loaded page the raw (pre-clamp) score lies in
[5, 100], so neither side of the clamp is ever exercised; the maximum 100
and the minimum 5 = 30 - 20 - 5 are both attained; and on a loaded page
the returned `website_score` equals the raw score. -/
theorem c10_raw_score_range :
    (∀ (t h : List Char) (u : String),
        5 ≤ (scorePage t h u).1 ∧ (scorePage t h u).1 ≤ 100 ∧
          max 0 (min 100 (scorePage t h u).1) = (scorePage t h u).1) ∧
      (scorePage bestText.data [] "https://example.com/").1 = 100 ∧
      (scorePage worstText.data [] "http://example.com/").1 = 5 ∧
      (∀ (e ef : String → String) (url html fu : String), url ≠ "" →
        (analyze_website e ef url (FetchOutcome.success fu html)).website_score =
          (scorePage (e html).data (lowerL html.data) fu).1) := by
  have key : ∀ (t h : List Char) (u : String),
      5 ≤ (scorePage t h u).1 ∧ (scorePage t h u).1 ≤ 100 := by
    intro t h u
    have h1 : tableSum _POSITIVE_SIGNALS t h ≤ maxSum _POSITIVE_SIGNALS :=
      tableSum_le_maxSum t h _
    have h2 : minSum _POSITIVE_SIGNALS ≤ tableSum _POSITIVE_SIGNALS t h :=
      minSum_le_tableSum t h _
    have h3 : tableSum _NEGATIVE_SIGNALS t h ≤ maxSum _NEGATIVE_SIGNALS :=
      tableSum_le_maxSum t h _
    have h4 : minSum _NEGATIVE_SIGNALS ≤ tableSum _NEGATIVE_SIGNALS t h :=
      minSum_le_tableSum t h _
    have e1 : maxSum _POSITIVE_SIGNALS = 65 := by decide
    have e2 : minSum _POSITIVE_SIGNALS = 0 := by decide
    have e3 : maxSum _NEGATIVE_SIGNALS = 0 := by decide
    have e4 : minSum _NEGATIVE_SIGNALS = -25 := by decide
    rw [e1] at h1
    rw [e2] at h2
    rw [e3] at h3
    rw [e4] at h4
    rw [scorePage_fst]
    by_cases hu : pyStartsWith u "https://"
    · simp only [hu, if_true]
      omega
    · simp only [hu, if_false]
      omega
  refine ⟨?_, by decide, by decide, ?_⟩
  · intro t h u
    obtain ⟨k1, k2⟩ := key t h u
    refine ⟨k1, k2, ?_⟩
    rw [min_eq_right k2, max_eq_right (by omega)]
  · intro e ef url html fu hurl
    obtain ⟨k1, k2⟩ := key (e html).data (lowerL html.data) fu
    simp only [analyze_website, hurl, if_false]
    rw [min_eq_right k2, max_eq_right (by omega)]

/-- Witness for C10: on a concrete loaded page the returned score equals
the raw score. -/
theorem c10_raw_score_range_w :
    (analyze_website (fun _ => "welcome") (fun _ => "") "w.com"
        (FetchOutcome.success "http://w.com/" "")).website_score =
      (scorePage "welcome".data (lowerL "".data) "http://w.com/").1 :=
  c10_raw_score_range.2.2.2 (fun _ => "welcome") (fun _ => "") "w.com" ""
    "http://w.com/" (by decide)
